import Mathlib

/-!
Shallow embedding of `controllers/flinksessioncluster_updater.go` from the
flink-on-k8s-operator repository: the status-aggregation and change-detection
unit of the FlinkSessionCluster control loop. Go structs become Lean
structures, Go nil pointers become `Option`, the `Update` call of the Kubernetes client becomes an explicit function parameter, and the Go runtime panic raised
by dereferencing a nil pointer is modelled by returning `none` from
`isStatusChanged`.
-/

namespace FlinkOperator

namespace metav1

/-- Object metadata of a Kubernetes resource; the updater only reads `Name`. -/
structure ObjectMeta where
  Name : String
deriving DecidableEq, Repr

end metav1

namespace appsv1

/-- Observed status of a Deployment: desired, ready and available replicas. -/
structure DeploymentStatus where
  Replicas : Int
  ReadyReplicas : Int
  AvailableReplicas : Int
deriving DecidableEq, Repr

/-- An observed Kubernetes Deployment (the fields the updater reads). -/
structure Deployment where
  ObjectMeta : metav1.ObjectMeta
  Status : DeploymentStatus
deriving DecidableEq, Repr

end appsv1

namespace corev1

/-- An observed Kubernetes Service (the updater only reads its name). -/
structure Service where
  ObjectMeta : metav1.ObjectMeta
deriving DecidableEq, Repr

end corev1

namespace batchv1

/-- Observed status of a batch Job: pod counters reported by Kubernetes. -/
structure JobStatus where
  Active : Int
  Succeeded : Int
  Failed : Int
deriving DecidableEq, Repr

/-- An observed Kubernetes batch Job (the fields the updater reads). -/
structure Job where
  ObjectMeta : metav1.ObjectMeta
  Status : JobStatus
deriving DecidableEq, Repr

end batchv1

/-- Modelled from the spec: the component-state enum values of the api
package (`v1alpha1`), which is outside the translated source file. The spec
names the states `Ready` and `NotReady` for replica-backed components; they
are typed strings in the api package, with the Go zero value being the empty
string. -/
def ClusterComponentStateReady : String := "Ready"

/-- Modelled from the spec: the `NotReady` component-state value. -/
def ClusterComponentStateNotReady : String := "NotReady"

/-- Modelled from the spec: the overall cluster state `Reconciling`. -/
def ClusterStateReconciling : String := "Reconciling"

/-- Modelled from the spec: the overall cluster state `Running`. -/
def ClusterStateRunning : String := "Running"

/-- Modelled from the spec: the job state `Running`. -/
def JobStateRunning : String := "Running"

/-- Modelled from the spec: the job state `Succeeded`. -/
def JobStateSucceeded : String := "Succeeded"

/-- Modelled from the spec: the job state `Failed`. -/
def JobStateFailed : String := "Failed"

/-- Modelled from the spec: the job state `Unknown`. -/
def JobStateUnknown : String := "Unknown"

/-- One component slot of the parent status: a (name, state) pair. In Go this
is a plain comparable struct, so an "absent" mandatory component is the zero
value `⟨"", ""⟩`, not a nil pointer. -/
structure FlinkSessionClusterComponentState where
  Name : String
  State : String
deriving DecidableEq, Repr

/-- The api package type `JobStatus` for the optional job slot of the parent
status: a (name, state) pair, held behind a pointer in Go. -/
structure JobStatus where
  Name : String
  State : String
deriving DecidableEq, Repr

/-- The component slots of the parent status. The three mandatory slots are
struct values (always present, zero-valued when the sub-resource is absent);
the job slot is a pointer (`Option`), genuinely absent when nil. -/
structure FlinkSessionClusterComponents where
  JobManagerDeployment : FlinkSessionClusterComponentState
  JobManagerService : FlinkSessionClusterComponentState
  TaskManagerDeployment : FlinkSessionClusterComponentState
  Job : Option JobStatus
deriving DecidableEq, Repr

/-- The status record of the parent resource. -/
structure FlinkSessionClusterStatus where
  Components : FlinkSessionClusterComponents
  State : String
  LastUpdateTime : String
deriving DecidableEq, Repr

/-- The parent FlinkSessionCluster resource: identity, spec (opaque to the
updater, which never reads or writes it) and status. -/
structure FlinkSessionCluster where
  ObjectMeta : metav1.ObjectMeta
  Spec : String
  Status : FlinkSessionClusterStatus
deriving DecidableEq, Repr

/-- The observed-state snapshot `_ObservedClusterState`: optional references
to the parent resource and its sub-resources, `none` meaning not found. -/
structure ObservedClusterState where
  cluster : Option FlinkSessionCluster
  jmDeployment : Option appsv1.Deployment
  jmService : Option corev1.Service
  tmDeployment : Option appsv1.Deployment
  job : Option batchv1.Job
deriving DecidableEq, Repr

/-- The identical replica-readiness block that `deriveClusterStatus` runs for
the JobManager deployment and for the TaskManager deployment: the derived
component slot together with its contribution to the `readyComponents` tally
(1 when the block executes `readyComponents++`, else 0). An absent deployment
leaves the slot at its Go zero value. -/
def deriveDeploymentStatus : Option appsv1.Deployment →
    FlinkSessionClusterComponentState × Nat
  | none => (⟨"", ""⟩, 0)
  | some d =>
    if d.Status.AvailableReplicas < d.Status.Replicas ∨
        d.Status.ReadyReplicas < d.Status.Replicas then
      (⟨d.ObjectMeta.Name, ClusterComponentStateNotReady⟩, 0)
    else
      (⟨d.ObjectMeta.Name, ClusterComponentStateReady⟩, 1)

/-- The JobManager-service block of `deriveClusterStatus`: a present service
is `Ready` by mere existence and counts toward the tally; an absent one
leaves the slot at its Go zero value. -/
def deriveServiceStatus : Option corev1.Service →
    FlinkSessionClusterComponentState × Nat
  | none => (⟨"", ""⟩, 0)
  | some svc => (⟨svc.ObjectMeta.Name, ClusterComponentStateReady⟩, 1)

/-- The optional-job block of `deriveClusterStatus`: an absent job leaves the
pointer nil; a present one gets its state from the first of
active/failed/succeeded that is positive, else `Unknown`. -/
def deriveJobStatus : Option batchv1.Job → Option JobStatus
  | none => none
  | some j =>
    some ⟨j.ObjectMeta.Name,
      if j.Status.Active > 0 then JobStateRunning
      else if j.Status.Failed > 0 then JobStateFailed
      else if j.Status.Succeeded > 0 then JobStateSucceeded
      else JobStateUnknown⟩

/-- Function `deriveClusterStatus`: derives the candidate parent status from the
snapshot. Overall state is `Reconciling` when fewer than 3 components were
tallied ready, else `Running`; the job slot never contributes to the tally.
The derived status has the zero value as its `LastUpdateTime`. -/
def deriveClusterStatus (observedState : ObservedClusterState) :
    FlinkSessionClusterStatus :=
  let jm := deriveDeploymentStatus observedState.jmDeployment
  let svc := deriveServiceStatus observedState.jmService
  let tm := deriveDeploymentStatus observedState.tmDeployment
  let readyComponents := jm.2 + svc.2 + tm.2
  { Components :=
      { JobManagerDeployment := jm.1
        JobManagerService := svc.1
        TaskManagerDeployment := tm.1
        Job := deriveJobStatus observedState.job }
    State :=
      if readyComponents < 3 then ClusterStateReconciling
      else ClusterStateRunning
    LastUpdateTime := "" }

/-- Function `isStatusChanged`: field-by-field comparison of the recorded status and
the candidate status. `LastUpdateTime` is never examined. The Go code guards
`currentStatus.Components.Job` against nil but then dereferences
`*newStatus.Components.Job` unconditionally, so the (current present, new
nil) case is a nil-pointer dereference: a runtime panic, modelled as `none`.
All returning paths are `some`. -/
def isStatusChanged (currentStatus newStatus : FlinkSessionClusterStatus) :
    Option Bool :=
  let c1 : Bool := decide (newStatus.State ≠ currentStatus.State)
  let c2 : Bool := decide (newStatus.Components.JobManagerDeployment ≠
    currentStatus.Components.JobManagerDeployment)
  let c3 : Bool := decide (newStatus.Components.JobManagerService ≠
    currentStatus.Components.JobManagerService)
  let c4 : Bool := decide (newStatus.Components.TaskManagerDeployment ≠
    currentStatus.Components.TaskManagerDeployment)
  match currentStatus.Components.Job, newStatus.Components.Job with
  | none, none => some (c1 || c2 || c3 || c4)
  | none, some _ => some true
  | some _, none => none
  | some cur, some nw => some (c1 || c2 || c3 || c4 || decide (nw ≠ cur))

/-- Function `updateClusterStatus`: deep-copies the observed parent resource, replaces
only its status sub-object with the given status, and hands the copy to the
Kubernetes client via `Update`. Returns the object passed to `Update` together
with the client result (`none` = success, `some msg` = error). -/
def updateClusterStatus (k8sUpdate : FlinkSessionCluster → Option String)
    (observedCluster : FlinkSessionCluster)
    (status : FlinkSessionClusterStatus) :
    FlinkSessionCluster × Option String :=
  let flinkSessionCluster := { observedCluster with Status := status }
  (flinkSessionCluster, k8sUpdate flinkSessionCluster)

/-- Outcome of one invocation of `updateClusterStatusIfChanged`: the list of
objects passed to the client `Update` call (at most one), whether the invocation
panicked (nil-pointer dereference inside `isStatusChanged`), and the returned
error (`none` = success). -/
structure UpdateOutcome where
  persistCalls : List FlinkSessionCluster
  panicked : Bool
  err : Option String
deriving DecidableEq, Repr

/-- Function `updateClusterStatusIfChanged`: if the parent is absent, a no-op success.
Otherwise deep-copy the recorded status, blank its `LastUpdateTime`, derive
the candidate from the snapshot, compare, and only on a change stamp the
candidate with the current time and persist it. `now` stands for
`time.Now().Format(time.RFC3339)`, passed explicitly. -/
def updateClusterStatusIfChanged
    (k8sUpdate : FlinkSessionCluster → Option String)
    (observedState : ObservedClusterState) (now : String) : UpdateOutcome :=
  match observedState.cluster with
  | none => ⟨[], false, none⟩
  | some cluster =>
    let currentStatus := { cluster.Status with LastUpdateTime := "" }
    let newStatus := deriveClusterStatus observedState
    match isStatusChanged currentStatus newStatus with
    | none => ⟨[], true, none⟩
    | some changed =>
      if changed then
        let stamped := { newStatus with LastUpdateTime := now }
        let call := updateClusterStatus k8sUpdate cluster stamped
        ⟨[call.1], false, call.2⟩
      else ⟨[], false, none⟩

/-! Concrete fixtures used to instantiate the theorems below. -/

/-- An RFC3339 timestamp used as a recorded `lastUpdateTime`. -/
def timeT1 : String := "2020-01-01T00:00:00Z"

/-- A later RFC3339 timestamp used as the stamping time `now`. -/
def timeT2 : String := "2020-01-02T00:00:00Z"

/-- An error message a failing Kubernetes client update could return. -/
def persistError : String := "conflict"

/-- A JobManager deployment with 3 desired, 3 ready, 3 available replicas. -/
def jmReadyDeployment : appsv1.Deployment := ⟨⟨"flink-jm"⟩, ⟨3, 3, 3⟩⟩

/-- A TaskManager deployment with 2 desired, 2 ready, 1 available replicas. -/
def tmLaggingDeployment : appsv1.Deployment := ⟨⟨"flink-tm"⟩, ⟨2, 2, 1⟩⟩

/-- An observed JobManager service. -/
def jmServiceObserved : corev1.Service := ⟨⟨"flink-jm-svc"⟩⟩

/-- A retried job observed with active=1, succeeded=0, failed=1. -/
def retriedJob : batchv1.Job := ⟨⟨"flink-job"⟩, ⟨1, 0, 1⟩⟩

/-- A snapshot in which nothing was observed. -/
def emptySnapshot : ObservedClusterState := ⟨none, none, none, none, none⟩

/-- A snapshot with every sub-resource present but the parent absent. -/
def deletedParentSnapshot : ObservedClusterState :=
  ⟨none, some jmReadyDeployment, some jmServiceObserved,
    some tmLaggingDeployment, some retriedJob⟩

/-- A snapshot observing only the retried job. -/
def retriedJobSnapshot : ObservedClusterState :=
  ⟨none, none, none, none, some retriedJob⟩

/-- A recorded parent status whose optional job slot is nil. -/
def statusJobAbsent : FlinkSessionClusterStatus :=
  { Components :=
      { JobManagerDeployment := ⟨"flink-jm", ClusterComponentStateReady⟩
        JobManagerService := ⟨"flink-jm-svc", ClusterComponentStateReady⟩
        TaskManagerDeployment := ⟨"flink-tm", ClusterComponentStateReady⟩
        Job := none }
    State := ClusterStateRunning
    LastUpdateTime := "" }

/-- The same parent status with the job slot present in state `Running`. -/
def statusJobPresent : FlinkSessionClusterStatus :=
  { statusJobAbsent with
    Components :=
      { statusJobAbsent.Components with Job := some ⟨"flink-job", JobStateRunning⟩ } }

/-- The same parent status with the job slot present in state `Failed`. -/
def statusJobFailed : FlinkSessionClusterStatus :=
  { statusJobAbsent with
    Components :=
      { statusJobAbsent.Components with Job := some ⟨"flink-job", JobStateFailed⟩ } }

/-- The status `statusJobPresent` carrying the recorded timestamp `timeT1`. -/
def statusJobPresentAtT1 : FlinkSessionClusterStatus :=
  { statusJobPresent with LastUpdateTime := timeT1 }

/-- The status `statusJobPresent` carrying the later timestamp `timeT2`. -/
def statusJobPresentAtT2 : FlinkSessionClusterStatus :=
  { statusJobPresent with LastUpdateTime := timeT2 }

/-- The parent status derived from a snapshot with no sub-resources: all
mandatory slots zero-valued, job nil, overall state `Reconciling`. -/
def idemStatus : FlinkSessionClusterStatus :=
  { Components :=
      { JobManagerDeployment := ⟨"", ""⟩
        JobManagerService := ⟨"", ""⟩
        TaskManagerDeployment := ⟨"", ""⟩
        Job := none }
    State := ClusterStateReconciling
    LastUpdateTime := "" }

/-- A parent whose recorded status already equals `idemStatus` up to its
recorded timestamp. -/
def idemCluster : FlinkSessionCluster :=
  ⟨⟨"my-cluster"⟩, "cluster-spec", { idemStatus with LastUpdateTime := timeT1 }⟩

/-- A snapshot of `idemCluster` with no sub-resources observed. -/
def idemSnapshot : ObservedClusterState :=
  ⟨some idemCluster, none, none, none, none⟩

/-- A parent with an empty recorded status. -/
def scenarioCluster : FlinkSessionCluster :=
  ⟨⟨"my-cluster"⟩, "cluster-spec",
    ⟨⟨⟨"", ""⟩, ⟨"", ""⟩, ⟨"", ""⟩, none⟩, "", ""⟩⟩

/-- The scenario snapshot of the spec: parent present with empty recorded status,
JobManager deployment fully ready, service present, TaskManager deployment
lagging, no job. -/
def scenarioSnapshot : ObservedClusterState :=
  ⟨some scenarioCluster, some jmReadyDeployment, some jmServiceObserved,
    some tmLaggingDeployment, none⟩

/-- The object the scenario persistence call hands to the client: the
observed parent with only its status replaced by the stamped candidate. -/
def scenarioTarget : FlinkSessionCluster :=
  { scenarioCluster with
    Status := { deriveClusterStatus scenarioSnapshot with LastUpdateTime := timeT2 } }

/-- A snapshot with every sub-resource present (and the parent absent, which
`deriveClusterStatus` ignores). -/
def allPresentSnapshot : ObservedClusterState :=
  ⟨none, some jmReadyDeployment, some jmServiceObserved,
    some tmLaggingDeployment, some retriedJob⟩

/-! Theorems. -/

/-- Comparing a status against itself detects no change (and in particular
does not panic, since the two job slots are nil together or non-nil
together). -/
theorem isStatusChanged_self (a : FlinkSessionClusterStatus) :
    isStatusChanged a a = some false := by
  obtain ⟨⟨jmD, jmS, tmD, jb⟩, st, t⟩ := a
  cases jb <;> simp [isStatusChanged]

/-- Claim C1: `isStatusChanged` compares the optional job slot three-way:
nil-vs-nil is unchanged and present-vs-present is structural equality, and
nil (recorded) vs present (candidate) is a change — but in the fourth case,
present (recorded) vs nil (candidate), the Go code dereferences the nil
`newStatus.Components.Job` pointer and panics (`= none`) instead of
reporting a change, contradicting the claim. -/
theorem isStatusChanged_job_slot_three_way :
    isStatusChanged statusJobAbsent statusJobAbsent = some false
    ∧ isStatusChanged statusJobAbsent statusJobPresent = some true
    ∧ isStatusChanged statusJobPresent statusJobPresent = some false
    ∧ isStatusChanged statusJobPresent statusJobFailed = some true
    ∧ isStatusChanged statusJobPresent statusJobAbsent = none := by
  decide

/-- Claim C4: when the parent cluster is absent from the snapshot,
`updateClusterStatusIfChanged` is a no-op success: no persistence call, no
panic, no error — whatever the client would do and whatever sub-resources
the snapshot holds. -/
theorem updateClusterStatusIfChanged_absent_parent
    (k8sUpdate : FlinkSessionCluster → Option String)
    (observedState : ObservedClusterState) (now : String)
    (h : observedState.cluster = none) :
    updateClusterStatusIfChanged k8sUpdate observedState now = ⟨[], false, none⟩ := by
  unfold updateClusterStatusIfChanged
  rw [h]

/-- Witness for C4: a snapshot with the parent absent but every sub-resource
present, against a client that would fail any update, still yields a no-op
success. -/
theorem updateClusterStatusIfChanged_absent_parent_witness :
    updateClusterStatusIfChanged (fun _ => some persistError)
      deletedParentSnapshot timeT2 = ⟨[], false, none⟩ :=
  updateClusterStatusIfChanged_absent_parent _ _ _ rfl

/-- Claim C6: when the job is observed, its derived state checks the four
conditions in priority order — active > 0, then failed > 0, then
succeeded > 0, else `Unknown` — first true wins. -/
theorem deriveClusterStatus_job_priority (observedState : ObservedClusterState)
    (j : batchv1.Job) (h : observedState.job = some j) :
    (deriveClusterStatus observedState).Components.Job =
      some ⟨j.ObjectMeta.Name,
        if j.Status.Active > 0 then JobStateRunning
        else if j.Status.Failed > 0 then JobStateFailed
        else if j.Status.Succeeded > 0 then JobStateSucceeded
        else JobStateUnknown⟩ := by
  simp [deriveClusterStatus, deriveJobStatus, h]

/-- Witness for C6: a job observed with active=1, failed=1, succeeded=0
derives state `Running` — active takes priority over failed. -/
theorem deriveClusterStatus_job_priority_witness :
    (deriveClusterStatus retriedJobSnapshot).Components.Job =
      some ⟨"flink-job", JobStateRunning⟩ :=
  (deriveClusterStatus_job_priority retriedJobSnapshot retriedJob rfl).trans
    (by decide)

/-- Claim C10: `deriveClusterStatus` is a pure, deterministic function of the
snapshot: equal snapshots derive equal statuses, the derived status never
carries a timestamp (it is stamped only on the persistence path), and the
derivation does not even read the parent resource itself. -/
theorem deriveClusterStatus_deterministic :
    (∀ s1 s2 : ObservedClusterState, s1 = s2 →
      deriveClusterStatus s1 = deriveClusterStatus s2)
    ∧ (∀ s : ObservedClusterState, (deriveClusterStatus s).LastUpdateTime = "")
    ∧ (∀ (s : ObservedClusterState) (cl : Option FlinkSessionCluster),
        deriveClusterStatus { s with cluster := cl } = deriveClusterStatus s) :=
  ⟨fun _ _ h => h ▸ rfl, fun _ => rfl, fun _ _ => rfl⟩

/-- Claim C3: the derived overall state is `Running` exactly when all three
mandatory sub-resources are present in the snapshot and their derived slots
are `Ready`; otherwise it is `Reconciling`; and the observed job never
affects the overall state. -/
theorem deriveClusterStatus_overall_state (observedState : ObservedClusterState) :
    ((deriveClusterStatus observedState).State = ClusterStateRunning ↔
      ((observedState.jmDeployment.isSome ∧
        (deriveClusterStatus observedState).Components.JobManagerDeployment.State =
          ClusterComponentStateReady) ∧
       (observedState.jmService.isSome ∧
        (deriveClusterStatus observedState).Components.JobManagerService.State =
          ClusterComponentStateReady) ∧
       (observedState.tmDeployment.isSome ∧
        (deriveClusterStatus observedState).Components.TaskManagerDeployment.State =
          ClusterComponentStateReady)))
    ∧ ((deriveClusterStatus observedState).State = ClusterStateRunning ∨
       (deriveClusterStatus observedState).State = ClusterStateReconciling)
    ∧ (∀ jb : Option batchv1.Job,
        (deriveClusterStatus { observedState with job := jb }).State =
          (deriveClusterStatus observedState).State) := by
  obtain ⟨cl, jmd, jms, tmd, jb0⟩ := observedState
  refine ⟨?_, ?_, fun jb => rfl⟩ <;>
    cases jmd <;> cases jms <;> cases tmd <;>
      simp [deriveClusterStatus, deriveDeploymentStatus, deriveServiceStatus,
        ClusterComponentStateReady, ClusterComponentStateNotReady,
        ClusterStateRunning, ClusterStateReconciling] <;>
      split_ifs <;> simp_all

/-- Claim C7: a present replica-backed deployment derives state `NotReady`
when available or ready replicas lag the desired count, else `Ready` — for
the JobManager slot and the TaskManager slot alike — and its block
contributes to the readiness tally exactly when the derived state is
`Ready`. -/
theorem deriveClusterStatus_deployment_readiness
    (observedState : ObservedClusterState) (d : appsv1.Deployment) :
    (observedState.jmDeployment = some d →
      (deriveClusterStatus observedState).Components.JobManagerDeployment.State =
        if d.Status.AvailableReplicas < d.Status.Replicas ∨
            d.Status.ReadyReplicas < d.Status.Replicas
        then ClusterComponentStateNotReady else ClusterComponentStateReady)
    ∧ (observedState.tmDeployment = some d →
      (deriveClusterStatus observedState).Components.TaskManagerDeployment.State =
        if d.Status.AvailableReplicas < d.Status.Replicas ∨
            d.Status.ReadyReplicas < d.Status.Replicas
        then ClusterComponentStateNotReady else ClusterComponentStateReady)
    ∧ ((deriveDeploymentStatus (some d)).2 = 1 ↔
        (deriveDeploymentStatus (some d)).1.State = ClusterComponentStateReady) := by
  refine ⟨fun h => ?_, fun h => ?_, ?_⟩
  · simp only [deriveClusterStatus, deriveDeploymentStatus, h]
    split_ifs <;> rfl
  · simp only [deriveClusterStatus, deriveDeploymentStatus, h]
    split_ifs <;> rfl
  · simp only [deriveDeploymentStatus]
    split_ifs <;>
      simp [ClusterComponentStateReady, ClusterComponentStateNotReady]

/-- Witness for C7: the fully-ready JobManager deployment (3/3/3) derives
`Ready` and the lagging TaskManager deployment (available 1 of desired 2)
derives `NotReady`, in the scenario snapshot. -/
theorem deriveClusterStatus_deployment_readiness_witness :
    (deriveClusterStatus scenarioSnapshot).Components.JobManagerDeployment.State =
      ClusterComponentStateReady
    ∧ (deriveClusterStatus scenarioSnapshot).Components.TaskManagerDeployment.State =
      ClusterComponentStateNotReady := by
  constructor
  · rw [(deriveClusterStatus_deployment_readiness scenarioSnapshot
      jmReadyDeployment).1 rfl]
    decide
  · rw [(deriveClusterStatus_deployment_readiness scenarioSnapshot
      tmLaggingDeployment).2.1 rfl]
    decide

/-- Claim C2 (amended): the optional job entry exists in the derived status
exactly when the job is observed; the three mandatory slots are plain struct
fields that always exist, and when a mandatory sub-resource is absent its
slot holds the zero value `⟨"", ""⟩` — still distinguishable from any slot
derived from a present sub-resource, whose state is never the empty
string. -/
theorem deriveClusterStatus_component_presence (observedState : ObservedClusterState) :
    ((deriveClusterStatus observedState).Components.Job.isSome =
      observedState.job.isSome)
    ∧ (observedState.jmDeployment = none →
        (deriveClusterStatus observedState).Components.JobManagerDeployment = ⟨"", ""⟩)
    ∧ (observedState.jmDeployment.isSome →
        (deriveClusterStatus observedState).Components.JobManagerDeployment.State ≠ ""
        ∧ (deriveClusterStatus observedState).Components.JobManagerDeployment ≠ ⟨"", ""⟩)
    ∧ (observedState.jmService = none →
        (deriveClusterStatus observedState).Components.JobManagerService = ⟨"", ""⟩)
    ∧ (observedState.jmService.isSome →
        (deriveClusterStatus observedState).Components.JobManagerService.State ≠ ""
        ∧ (deriveClusterStatus observedState).Components.JobManagerService ≠ ⟨"", ""⟩)
    ∧ (observedState.tmDeployment = none →
        (deriveClusterStatus observedState).Components.TaskManagerDeployment = ⟨"", ""⟩)
    ∧ (observedState.tmDeployment.isSome →
        (deriveClusterStatus observedState).Components.TaskManagerDeployment.State ≠ ""
        ∧ (deriveClusterStatus observedState).Components.TaskManagerDeployment ≠ ⟨"", ""⟩) := by
  obtain ⟨cl, jmd, jms, tmd, jb⟩ := observedState
  cases jmd <;> cases jms <;> cases tmd <;> cases jb <;>
    simp [deriveClusterStatus, deriveDeploymentStatus, deriveServiceStatus,
      deriveJobStatus, ClusterComponentStateReady, ClusterComponentStateNotReady] <;>
    split_ifs <;> simp_all

/-- Counterexample for C2: at the snapshot observing nothing, the JobManager
sub-resource is absent, yet the JobManagerDeployment slot of the derived status
is present and holds exactly the zero value `⟨"", ""⟩` — not the absent,
non-zero-valued entry the claim requires for mandatory components. -/
theorem deriveClusterStatus_absent_slot_zero_valued :
    emptySnapshot.jmDeployment = none
    ∧ (deriveClusterStatus emptySnapshot).Components.JobManagerDeployment =
        (⟨"", ""⟩ : FlinkSessionClusterComponentState) := by
  decide

/-- Witness for C2 (amended): instantiated at the empty snapshot (absent
sub-resources give a nil job entry and zero-valued mandatory slots) and at
the all-present snapshot (a present TaskManager deployment gives a slot with
a non-empty state, distinct from the zero value). -/
theorem deriveClusterStatus_component_presence_witness :
    ((deriveClusterStatus emptySnapshot).Components.Job.isSome =
      emptySnapshot.job.isSome)
    ∧ (deriveClusterStatus emptySnapshot).Components.JobManagerService = ⟨"", ""⟩
    ∧ ((deriveClusterStatus allPresentSnapshot).Components.TaskManagerDeployment.State ≠ ""
       ∧ (deriveClusterStatus allPresentSnapshot).Components.TaskManagerDeployment ≠
          ⟨"", ""⟩) :=
  ⟨(deriveClusterStatus_component_presence emptySnapshot).1,
   (deriveClusterStatus_component_presence emptySnapshot).2.2.2.1 rfl,
   (deriveClusterStatus_component_presence allPresentSnapshot).2.2.2.2.2.2 (by decide)⟩

/-- Claim C5: `isStatusChanged` never reads `lastUpdateTime`: two statuses
agreeing on overall state and on every component slot are judged unchanged
whatever their timestamps; the comparison is invariant under rewriting
the timestamp of either side; and the whole updater outcome is invariant under
the timestamp of the recorded status (which it normalizes out before
comparing). -/
theorem isStatusChanged_ignores_lastUpdateTime
    (a b : FlinkSessionClusterStatus) (x y : String)
    (h1 : a.State = b.State) (h2 : a.Components = b.Components) :
    isStatusChanged a b = some false
    ∧ isStatusChanged { a with LastUpdateTime := x } { b with LastUpdateTime := y } =
        isStatusChanged a b
    ∧ (∀ (k8sUpdate : FlinkSessionCluster → Option String)
        (s : ObservedClusterState) (c : FlinkSessionCluster) (t now : String),
        s.cluster = some c →
        updateClusterStatusIfChanged k8sUpdate
          { s with cluster := some ({ c with Status :=
              { c.Status with LastUpdateTime := t } }) } now
        = updateClusterStatusIfChanged k8sUpdate s now) := by
  refine ⟨?_, rfl, ?_⟩
  · obtain ⟨ac, as0, at0⟩ := a
    obtain ⟨bc, bs, bt⟩ := b
    obtain rfl : as0 = bs := h1
    obtain rfl : ac = bc := h2
    obtain ⟨jmD, jmS, tmD, jb⟩ := ac
    cases jb <;> simp [isStatusChanged]
  · intro k8sUpdate s c t now h
    obtain ⟨cl, jmd, jms, tmd, jb⟩ := s
    obtain rfl : cl = some c := h
    rfl

/-- Witness for C5: the recorded status at timestamp `timeT1` and the same
status at timestamp `timeT2` are judged unchanged. -/
theorem isStatusChanged_ignores_lastUpdateTime_witness :
    isStatusChanged statusJobPresentAtT1 statusJobPresentAtT2 = some false :=
  (isStatusChanged_ignores_lastUpdateTime statusJobPresentAtT1 statusJobPresentAtT2
    timeT1 timeT2 rfl rfl).1

/-- Claim C8: when the recorded status, with its timestamp normalized out,
already equals the status freshly derived from the snapshot, the updater is
a no-op success: zero persistence calls, no panic, no error. -/
theorem updateClusterStatusIfChanged_idempotent
    (k8sUpdate : FlinkSessionCluster → Option String)
    (observedState : ObservedClusterState) (c : FlinkSessionCluster) (now : String)
    (hc : observedState.cluster = some c)
    (h : { c.Status with LastUpdateTime := "" } = deriveClusterStatus observedState) :
    updateClusterStatusIfChanged k8sUpdate observedState now = ⟨[], false, none⟩ := by
  have hch : isStatusChanged { c.Status with LastUpdateTime := "" }
      (deriveClusterStatus observedState) = some false := by
    rw [h]; exact isStatusChanged_self _
  simp [updateClusterStatusIfChanged, hc, hch]

/-- Witness for C8: a snapshot whose recorded status already matches the
derived one up to its timestamp persists nothing, even against a client that
would fail any update. -/
theorem updateClusterStatusIfChanged_idempotent_witness :
    updateClusterStatusIfChanged (fun _ => some persistError) idemSnapshot timeT2 =
      ⟨[], false, none⟩ :=
  updateClusterStatusIfChanged_idempotent _ idemSnapshot idemCluster timeT2 rfl
    (by decide)

/-- Claim C9: every object the updater hands to the client `Update` call keeps
the observed parent identity and spec unchanged and differs from it only
in the status sub-object, which is exactly the derived candidate stamped
with `now`; and `updateClusterStatus` itself only ever replaces the status
sub-object of the copy it persists. -/
theorem updateClusterStatus_frame
    (k8sUpdate : FlinkSessionCluster → Option String)
    (observedState : ObservedClusterState) (c target : FlinkSessionCluster)
    (now : String)
    (hc : observedState.cluster = some c)
    (ht : target ∈ (updateClusterStatusIfChanged k8sUpdate observedState now).persistCalls) :
    (target.ObjectMeta = c.ObjectMeta ∧ target.Spec = c.Spec ∧
      target.Status = { deriveClusterStatus observedState with LastUpdateTime := now })
    ∧ (∀ (cl0 : FlinkSessionCluster) (st : FlinkSessionClusterStatus),
        (updateClusterStatus k8sUpdate cl0 st).1 = { cl0 with Status := st }) := by
  refine ⟨?_, fun cl0 st => rfl⟩
  simp only [updateClusterStatusIfChanged, updateClusterStatus, hc] at ht
  rcases hch : isStatusChanged { c.Status with LastUpdateTime := "" }
      (deriveClusterStatus observedState) with _ | changed
  · rw [hch] at ht
    simp at ht
  · rw [hch] at ht
    cases changed
    · simp at ht
    · simp at ht
      subst ht
      exact ⟨rfl, rfl, rfl⟩

/-- Witness for C9: in the scenario of the spec, the single persisted object
keeps the parent name and spec and carries exactly the stamped derived
status. -/
theorem updateClusterStatus_frame_witness :
    scenarioTarget.ObjectMeta = scenarioCluster.ObjectMeta
    ∧ scenarioTarget.Spec = scenarioCluster.Spec
    ∧ scenarioTarget.Status =
        { deriveClusterStatus scenarioSnapshot with LastUpdateTime := timeT2 } :=
  (updateClusterStatus_frame (fun _ => none) scenarioSnapshot scenarioCluster
    scenarioTarget timeT2 rfl (by decide)).1

/-- Witness for C10: determinism and the blank timestamp, at the snapshot
with every sub-resource present. -/
theorem deriveClusterStatus_deterministic_witness :
    deriveClusterStatus allPresentSnapshot = deriveClusterStatus allPresentSnapshot
    ∧ (deriveClusterStatus allPresentSnapshot).LastUpdateTime = "" :=
  ⟨deriveClusterStatus_deterministic.1 allPresentSnapshot allPresentSnapshot rfl,
    deriveClusterStatus_deterministic.2.1 allPresentSnapshot⟩

end FlinkOperator
